import Mathlib

/-!
# Verification of `spotify/search.py` (pyspotify search module)

A shallow embedding of `src/spotify/search.py` into Lean 4.

Modelling conventions:

* The native `sp_search *` resource (an opaque, reference-counted handle owned
  by libspotify) is modelled by the `Resource` structure.  The external
  collaborator functions (`lib.sp_search_is_loaded`, `lib.sp_search_error`,
  `lib.sp_search_query`, per-category `num/total/get` readers, and the
  refcounting primitives) become field reads / functional updates on it.
* The process-wide mutable state (`spotify.callback_dict`, the stream of fresh
  `uuid4` correlation keys, the remote `sp_search_create` calls that have been
  issued, and the per-handle `complete_event` flags) is modelled by the `World`
  structure, threaded explicitly through the operations that touch it.
  Correlation keys are modelled as `Nat`s drawn from a counter: key freshness
  (in the source: 128-bit randomness) is what the counter provides.
* Python exceptions become `Except SpErr`: `spError c` is the mapped
  libspotify error raised by `spotify.Error.maybe_raise`, `assertionError`
  the failed `assert key not in spotify.callback_dict`, and `timeout` the
  timeout error of `utils.load`.
* Side-effect ordering that the state-passing style would otherwise make
  atomic (signal-before-callback in the completion dispatch, register-before-
  create in the constructor) is made observable through explicit action
  traces returned next to the new state.
-/

/-- Spotify error codes as surfaced by `lib.sp_search_error` and wrapped in
`spotify.ErrorType`.  Code `0` is `SP_ERROR_OK` ("no error" / nil). -/
abbrev ErrorCode := Nat

/-- The nil error code `SP_ERROR_OK`. -/
def SP_ERROR_OK : ErrorCode := 0

/-- The exceptions the search module can raise. -/
inductive SpErr where
  /-- A `spotify.Error` raised by `maybe_raise` from a non-nil error code. -/
  | spError (code : ErrorCode)
  /-- An `AssertionError` from `assert key not in spotify.callback_dict`. -/
  | assertionError
  /-- The timeout error raised by `utils.load` when the deadline passes. -/
  | timeout
deriving DecidableEq, Repr

/-- Modelled from the spec: `spotify.Error.maybe_raise` is repository code not
under `src/` (only its callers are).  Per the spec, a non-nil error code is
"mapped to a raised error by any accessor when non-nil"; a nil (`OK`) code
raises nothing. -/
def maybeRaise (code : ErrorCode) : Except SpErr Unit :=
  if code = SP_ERROR_OK then .ok () else .error (.spError code)

/-- The opaque, reference-counted `sp_search *` resource.  Field reads model
the external `lib.sp_search_*` query functions of the collaborator contract;
`refCount` models the `sp_search_add_ref`/`sp_search_release` count. -/
structure Resource where
  loaded : Bool
  errorCode : ErrorCode
  queryText : String
  didYouMeanText : String
  numTracks : Nat
  numAlbums : Nat
  numArtists : Nat
  numPlaylists : Nat
  totalTracks : Nat
  totalAlbums : Nat
  totalArtists : Nat
  totalPlaylists : Nat
  /-- Models `lib.sp_search_track(sp_search, i)`: opaque track refs by index. -/
  tracksList : List Nat
  /-- Models `lib.sp_search_album(sp_search, i)`: opaque album refs by index. -/
  albumsList : List Nat
  /-- Models `lib.sp_search_artist(sp_search, i)`: opaque refs by index. -/
  artistsList : List Nat
  /-- Models `lib.sp_search_playlist_name(sp_search, i)` by index. -/
  playlistNames : List String
  /-- Models `lib.sp_search_playlist_uri(sp_search, i)` by index. -/
  playlistUris : List String
  /-- Models `lib.sp_search_playlist_image_uri(sp_search, i)` by index. -/
  playlistImageUris : List String
  refCount : Nat
deriving DecidableEq, Repr

/-- Models `lib.sp_search_add_ref`: take one more reference on the resource. -/
def spSearchAddRef (r : Resource) : Resource :=
  { r with refCount := r.refCount + 1 }

/-- Model of the external `lib.sp_search_create` collaborator: issuing a new
remote search returns a fresh, not-yet-loaded resource for the submitted
query, with no error and one reference owned by the caller. -/
def spSearchCreate (query : Option String) : Resource :=
  { loaded := false, errorCode := SP_ERROR_OK,
    queryText := query.getD "", didYouMeanText := "",
    numTracks := 0, numAlbums := 0, numArtists := 0, numPlaylists := 0,
    totalTracks := 0, totalAlbums := 0, totalArtists := 0, totalPlaylists := 0,
    tracksList := [], albumsList := [], artistsList := [],
    playlistNames := [], playlistUris := [], playlistImageUris := [],
    refCount := 1 }

/-- Models `spotify.Track(sp_track=...)`: a wrapper around an opaque ref. -/
structure Track where
  sp_track : Nat
deriving DecidableEq, Repr

/-- Models `spotify.Album(sp_album=...)`: a wrapper around an opaque ref. -/
structure Album where
  sp_album : Nat
deriving DecidableEq, Repr

/-- Models `spotify.Artist(sp_artist=...)`: a wrapper around an opaque ref. -/
structure Artist where
  sp_artist : Nat
deriving DecidableEq, Repr

/-- The namedtuple `SearchResultPlaylist(name, uri, image_uri)` from the
source. -/
structure SearchResultPlaylist where
  name : String
  uri : String
  image_uri : String
deriving DecidableEq, Repr

/-- Modelled from the spec: `utils.Sequence` is repository code not under
`src/` (only its callers are).  Per the spec it is a "lazily realized indexed
read-only view" parameterized by the owning resource handle, a total-count
function and an index-to-element materializer, holding one reference on the
resource for its own lifetime. -/
structure Sequence (α : Type) where
  sp_obj : Resource
  len_func : Resource → Nat
  getitem_func : Resource → Nat → α

/-- Length of a sequence view: the total-count function applied to the
resource. -/
def Sequence.length {α : Type} (s : Sequence α) : Nat :=
  s.len_func s.sp_obj

/-- The value a category accessor returns: the plain empty list `[]` when the
search is not loaded, or a `utils.Sequence` page accessor when it is. -/
inductive SeqResult (α : Type) where
  | emptyList : SeqResult α
  | seq : Sequence α → SeqResult α

/-- The length of a category accessor's result (`[]` has length 0). -/
def SeqResult.length {α : Type} : SeqResult α → Nat
  | .emptyList => 0
  | .seq s => s.length

/-- The `SP_SEARCH_STANDARD` member of the `SearchType` enum. -/
def SearchType.STANDARD : Nat := 0

/-- The `SP_SEARCH_SUGGEST` member of the `SearchType` enum. -/
def SearchType.SUGGEST : Nat := 1

/-- The `SearchResult` handle: the fields `__init__` assigns on `self`.
`search_type` is `Option Nat` because the Python default is `None` (and the
source stores the *parameter*, before the local `STANDARD` defaulting).
The user callback is modelled by an opaque id, `None` as `none`.
`complete_event` lives in `World.signaled`, keyed by `id`, because the
completion dispatch reaches it through the process-wide registry. -/
structure SearchResult where
  id : Nat
  callback : Option Nat
  track_offset : Nat
  track_count : Nat
  album_offset : Nat
  album_count : Nat
  artist_offset : Nat
  artist_count : Nat
  playlist_offset : Nat
  playlist_count : Nat
  search_type : Option Nat
  sp_search : Resource
deriving DecidableEq, Repr

/-- One `lib.sp_search_create` call as issued to the remote session: the
submitted query, the four pagination windows, the (defaulted) search type
and the correlation key passed as opaque userdata. -/
structure Request where
  query : Option String
  track_offset : Nat
  track_count : Nat
  album_offset : Nat
  album_count : Nat
  artist_offset : Nat
  artist_count : Nat
  playlist_offset : Nat
  playlist_count : Nat
  searchType : Nat
  userdataKey : Nat
deriving DecidableEq, Repr

/-- The process-wide mutable state: `spotify.callback_dict` (correlation key →
`(callback, search handle id)`), the fresh-key and fresh-handle counters, the
log of issued `sp_search_create` requests, and the set of handle ids whose
`complete_event` has been set. -/
structure World where
  callback_dict : List (Nat × (Option Nat × Nat))
  keyCounter : Nat
  handleCounter : Nat
  requests : List Request
  signaled : List Nat
deriving DecidableEq, Repr

/-- Membership test `key in spotify.callback_dict`. -/
def World.hasKey (w : World) (key : Nat) : Bool :=
  (w.callback_dict.lookup key).isSome

/-- Lookup half of `spotify.callback_dict.pop(key, None)`. -/
def World.getEntry (w : World) (key : Nat) : Option (Option Nat × Nat) :=
  w.callback_dict.lookup key

/-- Removal of a key from `spotify.callback_dict` (the mutation performed by
`dict.pop`). -/
def eraseKey (key : Nat) (d : List (Nat × (Option Nat × Nat))) :
    List (Nat × (Option Nat × Nat)) :=
  d.filter (fun p => p.1 ≠ key)

/-- Source property `SearchResult.is_loaded`: queries the wrapped resource's
loaded flag via `lib.sp_search_is_loaded`. -/
def SearchResult.is_loaded (s : SearchResult) : Bool :=
  s.sp_search.loaded

/-- Source property `SearchResult.error`: queries the wrapped resource's error
code via `lib.sp_search_error`. -/
def SearchResult.error (s : SearchResult) : ErrorCode :=
  s.sp_search.errorCode

/-- Source property `SearchResult.query`: raises on a set error, otherwise the
decoded query text, `None` when empty. -/
def SearchResult.query (s : SearchResult) : Except SpErr (Option String) :=
  match maybeRaise s.error with
  | .error e => .error e
  | .ok _ =>
    let query := s.sp_search.queryText
    .ok (if query = "" then none else some query)

/-- Source property `SearchResult.did_you_mean`: raises on a set error,
otherwise the suggestion text, `None` when empty. -/
def SearchResult.did_you_mean (s : SearchResult) : Except SpErr (Option String) :=
  match maybeRaise s.error with
  | .error e => .error e
  | .ok _ =>
    let did_you_mean := s.sp_search.didYouMeanText
    .ok (if did_you_mean = "" then none else some did_you_mean)

/-- Source property `SearchResult.tracks`: raises on a set error; the empty
list when not loaded; otherwise takes a new reference and returns a
`utils.Sequence` over the track category.  The first component of the result
is the receiver as left behind by the call (the add-ref is the only mutation
the source performs through it). -/
def SearchResult.tracks (s : SearchResult) :
    Except SpErr (SearchResult × SeqResult Track) :=
  match maybeRaise s.error with
  | .error e => .error e
  | .ok _ =>
    if ¬ s.is_loaded then .ok (s, .emptyList)
    else
      let r := spSearchAddRef s.sp_search
      .ok ({ s with sp_search := r },
        .seq { sp_obj := r,
               len_func := Resource.numTracks,
               getitem_func := fun sp_search key =>
                 { sp_track := sp_search.tracksList.getD key 0 } })

/-- Source property `SearchResult.track_total`: raises on a set error,
otherwise `lib.sp_search_total_tracks`. -/
def SearchResult.track_total (s : SearchResult) : Except SpErr Nat :=
  match maybeRaise s.error with
  | .error e => .error e
  | .ok _ => .ok s.sp_search.totalTracks

/-- Source property `SearchResult.albums`: raises on a set error; the empty
list when not loaded; otherwise a new reference and a `utils.Sequence` over
the album category. -/
def SearchResult.albums (s : SearchResult) :
    Except SpErr (SearchResult × SeqResult Album) :=
  match maybeRaise s.error with
  | .error e => .error e
  | .ok _ =>
    if ¬ s.is_loaded then .ok (s, .emptyList)
    else
      let r := spSearchAddRef s.sp_search
      .ok ({ s with sp_search := r },
        .seq { sp_obj := r,
               len_func := Resource.numAlbums,
               getitem_func := fun sp_search key =>
                 { sp_album := sp_search.albumsList.getD key 0 } })

/-- Source property `SearchResult.album_total`: raises on a set error,
otherwise `lib.sp_search_total_albums`. -/
def SearchResult.album_total (s : SearchResult) : Except SpErr Nat :=
  match maybeRaise s.error with
  | .error e => .error e
  | .ok _ => .ok s.sp_search.totalAlbums

/-- Source property `SearchResult.artists`: raises on a set error; the empty
list when not loaded; otherwise a new reference and a `utils.Sequence` over
the artist category. -/
def SearchResult.artists (s : SearchResult) :
    Except SpErr (SearchResult × SeqResult Artist) :=
  match maybeRaise s.error with
  | .error e => .error e
  | .ok _ =>
    if ¬ s.is_loaded then .ok (s, .emptyList)
    else
      let r := spSearchAddRef s.sp_search
      .ok ({ s with sp_search := r },
        .seq { sp_obj := r,
               len_func := Resource.numArtists,
               getitem_func := fun sp_search key =>
                 { sp_artist := sp_search.artistsList.getD key 0 } })

/-- Source property `SearchResult.artist_total`: raises on a set error,
otherwise `lib.sp_search_total_artists`. -/
def SearchResult.artist_total (s : SearchResult) : Except SpErr Nat :=
  match maybeRaise s.error with
  | .error e => .error e
  | .ok _ => .ok s.sp_search.totalArtists

/-- Source property `SearchResult.playlists`: raises on a set error; the empty
list when not loaded; otherwise a new reference and a `utils.Sequence` of
`SearchResultPlaylist` records.  The source's `getitem` closure reads through
`self._sp_search` and ignores its `sp_search` argument, which the embedded
materializer mirrors. -/
def SearchResult.playlists (s : SearchResult) :
    Except SpErr (SearchResult × SeqResult SearchResultPlaylist) :=
  match maybeRaise s.error with
  | .error e => .error e
  | .ok _ =>
    if ¬ s.is_loaded then .ok (s, .emptyList)
    else
      let getitem : Resource → Nat → SearchResultPlaylist := fun _ key =>
        { name := s.sp_search.playlistNames.getD key "",
          uri := s.sp_search.playlistUris.getD key "",
          image_uri := s.sp_search.playlistImageUris.getD key "" }
      let r := spSearchAddRef s.sp_search
      .ok ({ s with sp_search := r },
        .seq { sp_obj := r,
               len_func := Resource.numPlaylists,
               getitem_func := getitem })

/-- Source property `SearchResult.playlist_total`: raises on a set error,
otherwise `lib.sp_search_total_playlists`. -/
def SearchResult.playlist_total (s : SearchResult) : Except SpErr Nat :=
  match maybeRaise s.error with
  | .error e => .error e
  | .ok _ => .ok s.sp_search.totalPlaylists

/-- Observable side effects of constructing a `SearchResult`, in the order the
source performs them. -/
inductive InitAction where
  /-- Insertion of the fresh correlation key into `spotify.callback_dict`. -/
  | registerKey (key : Nat)
  /-- The `lib.sp_search_create` call issued to the remote session. -/
  | createCall (req : Request)
  /-- The `lib.sp_search_add_ref` call of the `add_ref=True` wrap branch. -/
  | addRefCall
deriving DecidableEq, Repr

/-- Source `SearchResult.__init__`.  With `sp_search = none` it generates a
fresh correlation key, asserts it absent from `spotify.callback_dict`
(`assertionError` otherwise), registers `(callback, self)` under it, and
issues the `sp_search_create` call (which also resets `add_ref` to false);
with an existing `sp_search` it only optionally takes a reference.  Handle
identity (`self`) is modelled by a fresh id from `World.handleCounter`.
Returns the new world, the constructed handle, and the trace of observable
side effects in source order. -/
def SearchResult.init (w : World)
    (query : Option String) (callback : Option Nat)
    (track_offset track_count album_offset album_count
     artist_offset artist_count playlist_offset playlist_count : Nat)
    (search_type : Option Nat)
    (sp_search : Option Resource) (add_ref : Bool) :
    Except SpErr (World × SearchResult × List InitAction) :=
  match sp_search with
  | none =>
    let st := match search_type with
      | none => SearchType.STANDARD
      | some t => t
    let key := w.keyCounter
    if w.hasKey key then .error .assertionError
    else
      let hid := w.handleCounter
      let req : Request :=
        { query := query,
          track_offset := track_offset, track_count := track_count,
          album_offset := album_offset, album_count := album_count,
          artist_offset := artist_offset, artist_count := artist_count,
          playlist_offset := playlist_offset, playlist_count := playlist_count,
          searchType := st, userdataKey := key }
      .ok
        ({ callback_dict := (key, (callback, hid)) :: w.callback_dict,
           keyCounter := key + 1, handleCounter := hid + 1,
           requests := w.requests ++ [req], signaled := w.signaled },
         { id := hid, callback := callback,
           track_offset := track_offset, track_count := track_count,
           album_offset := album_offset, album_count := album_count,
           artist_offset := artist_offset, artist_count := artist_count,
           playlist_offset := playlist_offset, playlist_count := playlist_count,
           search_type := search_type, sp_search := spSearchCreate query },
         [.registerKey key, .createCall req])
  | some r =>
    let hid := w.handleCounter
    .ok ({ w with handleCounter := hid + 1 },
         { id := hid, callback := callback,
           track_offset := track_offset, track_count := track_count,
           album_offset := album_offset, album_count := album_count,
           artist_offset := artist_offset, artist_count := artist_count,
           playlist_offset := playlist_offset, playlist_count := playlist_count,
           search_type := search_type,
           sp_search := if add_ref then spSearchAddRef r else r },
         if add_ref then [.addRefCall] else [])

/-- Python `override or default` for the `*_count` arguments of `more`:
`None` and `0` are both falsy, so either falls back to the default. -/
def pyOrCount (override : Option Nat) (default : Nat) : Nat :=
  match override with
  | none => default
  | some n => if n = 0 then default else n

/-- Python `callback or self.callback`: `None` is falsy, a function object is
always truthy. -/
def pyOrCallback (override default : Option Nat) : Option Nat :=
  match override with
  | none => default
  | some c => some c

/-- Source `SearchResult.more`: computes the advanced windows (each offset is
the previous offset plus the previous count; each count is `override or
previous`; `callback or self.callback`), then constructs a brand-new handle
via `SearchResult.__init__` with `query=self.query` (evaluated first among
the constructor arguments, so a set error raises before any construction)
and `search_type=self.search_type`. -/
def SearchResult.more (w : World) (s : SearchResult)
    (callback : Option Nat)
    (track_count album_count artist_count playlist_count : Option Nat) :
    Except SpErr (World × SearchResult × List InitAction) :=
  let callback := pyOrCallback callback s.callback
  let track_offset := s.track_offset + s.track_count
  let track_count := pyOrCount track_count s.track_count
  let album_offset := s.album_offset + s.album_count
  let album_count := pyOrCount album_count s.album_count
  let artist_offset := s.artist_offset + s.artist_count
  let artist_count := pyOrCount artist_count s.artist_count
  let playlist_offset := s.playlist_offset + s.playlist_count
  let playlist_count := pyOrCount playlist_count s.playlist_count
  match s.query with
  | .error e => .error e
  | .ok q =>
    SearchResult.init w q callback
      track_offset track_count album_offset album_count
      artist_offset artist_count playlist_offset playlist_count
      s.search_type none true

/-- Observable actions of the completion dispatch, in the order the source
performs them. -/
inductive DispatchAction where
  /-- Logged warning: `called without userdata`. -/
  | warnNoUserdata
  /-- Logged warning: `key %r not in callback_dict`. -/
  | warnUnknownKey (key : Nat)
  /-- Setting `search_result.complete_event`. -/
  | setSignal (handleId : Nat)
  /-- Invocation of the user callback with the search result. -/
  | invokeCallback (cb handleId : Nat)
deriving DecidableEq, Repr

/-- Source `_search_complete_callback`: with null userdata it logs and
returns; otherwise it pops the key from `spotify.callback_dict` (logging and
returning when absent), sets the handle's completion signal, and then invokes
the user callback when one is present.  Returns the new world and the trace
of observable actions in source order. -/
def searchCompleteCallback (w : World) (userdata : Option Nat) :
    World × List DispatchAction :=
  match userdata with
  | none => (w, [.warnNoUserdata])
  | some key =>
    match w.getEntry key with
    | none => (w, [.warnUnknownKey key])
    | some (callback, hid) =>
      ({ w with callback_dict := eraseKey key w.callback_dict,
                signaled := hid :: w.signaled },
       .setSignal hid ::
         (match callback with
          | none => []
          | some c => [.invokeCallback c hid]))

/-- Index (from `t`, with `fuel` further polls allowed) of the first poll at
which the resource reports loaded, if any. -/
def firstLoadedAt (future : Nat → Resource) : Nat → Nat → Option Nat
  | t, 0 => if (future t).loaded then some t else none
  | t, fuel + 1 =>
    if (future t).loaded then some t else firstLoadedAt future (t + 1) fuel

/-- Modelled from the spec: `utils.load` is repository code not under `src/`
(`SearchResult.load` merely delegates to it).  Per the spec it "polls/waits
until `is_loaded()` is true or timeout elapses, then returns self; fails with
a timeout error if the deadline passes first, and propagates the operation's
own error if one is set once loaded".  Time is discrete: `future t` is the
state of the underlying resource at poll `t`, and `deadline` is how many
further polls the timeout allows after the first. -/
def utilsLoad (s : SearchResult) (future : Nat → Resource) (deadline : Nat) :
    Except SpErr SearchResult :=
  match firstLoadedAt future 0 deadline with
  | none => .error .timeout
  | some t =>
    match maybeRaise (future t).errorCode with
    | .error e => .error e
    | .ok _ => .ok { s with sp_search := future t }

/-- Source `SearchResult.load`: delegates to `utils.load`. -/
def SearchResult.load (s : SearchResult) (future : Nat → Resource)
    (deadline : Nat) : Except SpErr SearchResult :=
  utilsLoad s future deadline

/-! ## Concrete fixtures used by witnesses and counterexamples -/

/-- A pending (not yet loaded) resource, as returned by `spSearchCreate`. -/
def resPending : Resource := spSearchCreate (some "beatles")

/-- A loaded, error-free resource holding a couple of results. -/
def resLoaded : Resource :=
  { resPending with
    loaded := true,
    numTracks := 2, numAlbums := 1, numArtists := 1, numPlaylists := 1,
    totalTracks := 42, totalAlbums := 5, totalArtists := 4, totalPlaylists := 3,
    tracksList := [10, 11], albumsList := [20], artistsList := [30],
    playlistNames := ["p"], playlistUris := ["u"], playlistImageUris := ["i"] }

/-- A resource with a non-nil error code set. -/
def resFailed : Resource := { resPending with errorCode := 3 }

/-- A handle over a given resource with the constructor's default windows. -/
def handleWith (r : Resource) : SearchResult :=
  { id := 0, callback := some 7,
    track_offset := 0, track_count := 20,
    album_offset := 0, album_count := 20,
    artist_offset := 0, artist_count := 20,
    playlist_offset := 0, playlist_count := 20,
    search_type := none, sp_search := r }

/-- An empty world: empty registry, counters at zero, nothing issued. -/
def w0 : World :=
  { callback_dict := [], keyCounter := 0, handleCounter := 0,
    requests := [], signaled := [] }

/-- A world whose registry holds one pending entry: key 5 → (callback 7,
handle 3). -/
def w1 : World := { w0 with callback_dict := [(5, (some 7, 3))] }

/-! ## C1 -/

/-- C1: For every `SearchResult` whose `error()` is non-nil, each of the
accessors `tracks()`, `albums()`, `artists()`, `playlists()`, `query()`,
`did_you_mean()`, `track_total()`, `album_total()`, `artist_total()` and
`playlist_total()` raises the error mapped from that error code, regardless
of whether the search is loaded (the statement imposes no loadedness
hypothesis), and before any loaded-state check. -/
theorem c1_error_raises_in_every_accessor (s : SearchResult)
    (h : s.error ≠ SP_ERROR_OK) :
    s.tracks = .error (.spError s.error) ∧
    s.albums = .error (.spError s.error) ∧
    s.artists = .error (.spError s.error) ∧
    s.playlists = .error (.spError s.error) ∧
    s.query = .error (.spError s.error) ∧
    s.did_you_mean = .error (.spError s.error) ∧
    s.track_total = .error (.spError s.error) ∧
    s.album_total = .error (.spError s.error) ∧
    s.artist_total = .error (.spError s.error) ∧
    s.playlist_total = .error (.spError s.error) := by
  have hm : maybeRaise s.error = .error (.spError s.error) := by
    simp [maybeRaise, h]
  exact ⟨by simp [SearchResult.tracks, hm], by simp [SearchResult.albums, hm],
    by simp [SearchResult.artists, hm], by simp [SearchResult.playlists, hm],
    by simp [SearchResult.query, hm], by simp [SearchResult.did_you_mean, hm],
    by simp [SearchResult.track_total, hm], by simp [SearchResult.album_total, hm],
    by simp [SearchResult.artist_total, hm],
    by simp [SearchResult.playlist_total, hm]⟩

/-- Witness for C1 at a concrete loaded-but-errored handle. -/
theorem c1_error_raises_in_every_accessor_witness :
    (handleWith { resLoaded with errorCode := 3 }).error ≠ SP_ERROR_OK ∧
    ((handleWith { resLoaded with errorCode := 3 }).tracks =
        .error (.spError (handleWith { resLoaded with errorCode := 3 }).error) ∧
      (handleWith { resLoaded with errorCode := 3 }).albums =
        .error (.spError (handleWith { resLoaded with errorCode := 3 }).error) ∧
      (handleWith { resLoaded with errorCode := 3 }).artists =
        .error (.spError (handleWith { resLoaded with errorCode := 3 }).error) ∧
      (handleWith { resLoaded with errorCode := 3 }).playlists =
        .error (.spError (handleWith { resLoaded with errorCode := 3 }).error) ∧
      (handleWith { resLoaded with errorCode := 3 }).query =
        .error (.spError (handleWith { resLoaded with errorCode := 3 }).error) ∧
      (handleWith { resLoaded with errorCode := 3 }).did_you_mean =
        .error (.spError (handleWith { resLoaded with errorCode := 3 }).error) ∧
      (handleWith { resLoaded with errorCode := 3 }).track_total =
        .error (.spError (handleWith { resLoaded with errorCode := 3 }).error) ∧
      (handleWith { resLoaded with errorCode := 3 }).album_total =
        .error (.spError (handleWith { resLoaded with errorCode := 3 }).error) ∧
      (handleWith { resLoaded with errorCode := 3 }).artist_total =
        .error (.spError (handleWith { resLoaded with errorCode := 3 }).error) ∧
      (handleWith { resLoaded with errorCode := 3 }).playlist_total =
        .error (.spError (handleWith { resLoaded with errorCode := 3 }).error)) :=
  ⟨by decide,
   c1_error_raises_in_every_accessor (handleWith { resLoaded with errorCode := 3 })
     (by decide)⟩

/-! ## C2 -/

/-- C2: For every `SearchResult` with no error set, each category accessor
`tracks()`, `albums()`, `artists()`, `playlists()` returns the empty list
whenever `is_loaded()` is false — it never raises merely because the search
is not yet loaded (the result is `.ok`, and its length is 0) — and once
loaded it returns a `utils.Sequence` page accessor over that category whose
resource carries one new reference (`refCount` one higher than the handle's
resource had). -/
theorem c2_accessors_empty_until_loaded_then_page (s : SearchResult)
    (herr : s.error = SP_ERROR_OK) :
    (s.is_loaded = false →
      s.tracks = .ok (s, .emptyList) ∧
      s.albums = .ok (s, .emptyList) ∧
      s.artists = .ok (s, .emptyList) ∧
      s.playlists = .ok (s, .emptyList) ∧
      (SeqResult.emptyList : SeqResult Track).length = 0) ∧
    (s.is_loaded = true →
      (∃ s' v, s.tracks = .ok (s', .seq v) ∧
        v.sp_obj.refCount = s.sp_search.refCount + 1 ∧
        v.len_func = Resource.numTracks ∧
        ∀ r k, v.getitem_func r k = { sp_track := r.tracksList.getD k 0 }) ∧
      (∃ s' v, s.albums = .ok (s', .seq v) ∧
        v.sp_obj.refCount = s.sp_search.refCount + 1 ∧
        v.len_func = Resource.numAlbums ∧
        ∀ r k, v.getitem_func r k = { sp_album := r.albumsList.getD k 0 }) ∧
      (∃ s' v, s.artists = .ok (s', .seq v) ∧
        v.sp_obj.refCount = s.sp_search.refCount + 1 ∧
        v.len_func = Resource.numArtists ∧
        ∀ r k, v.getitem_func r k = { sp_artist := r.artistsList.getD k 0 }) ∧
      (∃ s' v, s.playlists = .ok (s', .seq v) ∧
        v.sp_obj.refCount = s.sp_search.refCount + 1 ∧
        v.len_func = Resource.numPlaylists ∧
        ∀ r k, v.getitem_func r k =
          { name := s.sp_search.playlistNames.getD k "",
            uri := s.sp_search.playlistUris.getD k "",
            image_uri := s.sp_search.playlistImageUris.getD k "" })) := by
  have hm : maybeRaise s.error = .ok () := by simp [maybeRaise, herr]
  constructor
  · intro hl
    exact ⟨by simp [SearchResult.tracks, hm, hl],
      by simp [SearchResult.albums, hm, hl],
      by simp [SearchResult.artists, hm, hl],
      by simp [SearchResult.playlists, hm, hl], rfl⟩
  · intro hl
    refine ⟨⟨{ s with sp_search := spSearchAddRef s.sp_search },
        { sp_obj := spSearchAddRef s.sp_search, len_func := Resource.numTracks,
          getitem_func := fun sp key => { sp_track := sp.tracksList.getD key 0 } },
        ?_, rfl, rfl, fun r k => rfl⟩,
      ⟨{ s with sp_search := spSearchAddRef s.sp_search },
        { sp_obj := spSearchAddRef s.sp_search, len_func := Resource.numAlbums,
          getitem_func := fun sp key => { sp_album := sp.albumsList.getD key 0 } },
        ?_, rfl, rfl, fun r k => rfl⟩,
      ⟨{ s with sp_search := spSearchAddRef s.sp_search },
        { sp_obj := spSearchAddRef s.sp_search, len_func := Resource.numArtists,
          getitem_func := fun sp key => { sp_artist := sp.artistsList.getD key 0 } },
        ?_, rfl, rfl, fun r k => rfl⟩,
      ⟨{ s with sp_search := spSearchAddRef s.sp_search },
        { sp_obj := spSearchAddRef s.sp_search, len_func := Resource.numPlaylists,
          getitem_func := fun _ key =>
            { name := s.sp_search.playlistNames.getD key "",
              uri := s.sp_search.playlistUris.getD key "",
              image_uri := s.sp_search.playlistImageUris.getD key "" } },
        ?_, rfl, rfl, fun r k => rfl⟩⟩
    · simp [SearchResult.tracks, hm, hl]
    · simp [SearchResult.albums, hm, hl]
    · simp [SearchResult.artists, hm, hl]
    · simp [SearchResult.playlists, hm, hl]

/-- Witness for C2 at a freshly constructed (pending, error-free) handle:
the hypothesis holds and `tracks` returns the empty list. -/
theorem c2_accessors_empty_until_loaded_then_page_witness :
    (handleWith resPending).error = SP_ERROR_OK ∧
    (handleWith resPending).tracks = .ok (handleWith resPending, .emptyList) :=
  ⟨by decide,
   ((c2_accessors_empty_until_loaded_then_page (handleWith resPending)
      (by decide)).1 (by decide)).1⟩

/-! ## C3 and C4 -/

/-- Removing a key from the registry makes lookups of that key fail. -/
theorem lookup_eraseKey (key : Nat) (d : List (Nat × (Option Nat × Nat))) :
    (eraseKey key d).lookup key = none := by
  induction d with
  | nil => rfl
  | cons p t ih =>
    obtain ⟨k, v⟩ := p
    by_cases hp : k = key
    · simpa [eraseKey, List.filter_cons, hp] using ih
    · have hfilter : eraseKey key ((k, v) :: t) = (k, v) :: eraseKey key t := by
        simp [eraseKey, List.filter_cons, hp]
      have hb : (key == k) = false := by simpa using Ne.symm hp
      rw [hfilter]
      simpa [List.lookup, hb] using ih

/-- A successful dispatch step, written out. -/
theorem searchCompleteCallback_delivers (w : World) (key : Nat)
    (cb : Option Nat) (hid : Nat) (h : w.getEntry key = some (cb, hid)) :
    searchCompleteCallback w (some key) =
      ({ w with callback_dict := eraseKey key w.callback_dict,
                signaled := hid :: w.signaled },
       DispatchAction.setSignal hid ::
         (match cb with
          | none => []
          | some c => [DispatchAction.invokeCallback c hid])) := by
  simp only [searchCompleteCallback, h]
  cases cb <;> rfl

/-- C3: Completion dispatch delivers at most once per correlation key: the
first invocation with a registered key removes the key from the registry,
sets the completion signal and puts exactly one callback invocation in its
action trace when a callback is present (none otherwise); a second
invocation with the same key, an invocation with a never-registered key, or
an invocation with a null userdata buffer only logs a warning and leaves the
world unchanged — no signal change, no callback invocation, and no exception
(the dispatch function is total). -/
theorem c3_dispatch_delivers_at_most_once (w : World) (key : Nat)
    (cb : Option Nat) (hid : Nat) (h : w.getEntry key = some (cb, hid)) :
    ((searchCompleteCallback w (some key)).1.getEntry key = none ∧
     (searchCompleteCallback w (some key)).1.signaled = hid :: w.signaled ∧
     (searchCompleteCallback w (some key)).2.count
        (DispatchAction.setSignal hid) = 1 ∧
     (searchCompleteCallback w (some key)).2.countP
        (fun a => match a with
          | DispatchAction.invokeCallback _ _ => true
          | _ => false) = (match cb with | some _ => 1 | none => 0)) ∧
    (searchCompleteCallback (searchCompleteCallback w (some key)).1 (some key) =
      ((searchCompleteCallback w (some key)).1,
       [DispatchAction.warnUnknownKey key])) ∧
    (∀ w' k, w'.getEntry k = none →
      searchCompleteCallback w' (some k) =
        (w', [DispatchAction.warnUnknownKey k])) ∧
    (∀ w', searchCompleteCallback w' none =
      (w', [DispatchAction.warnNoUserdata])) := by
  have hstep := searchCompleteCallback_delivers w key cb hid h
  refine ⟨⟨?_, ?_, ?_, ?_⟩, ?_, ?_, ?_⟩
  · rw [hstep]
    exact lookup_eraseKey key w.callback_dict
  · rw [hstep]
  · rw [hstep]
    cases cb <;> simp
  · rw [hstep]
    cases cb <;> simp
  · rw [hstep]
    simp only [searchCompleteCallback, World.getEntry, lookup_eraseKey]
  · intro w' k hk
    simp only [searchCompleteCallback, hk]
  · intro w'
    rfl

/-- Witness for C3 at the one-entry registry `w1`: the entry is registered,
and the first dispatch removes it. -/
theorem c3_dispatch_delivers_at_most_once_witness :
    w1.getEntry 5 = some (some 7, 3) ∧
    (searchCompleteCallback w1 (some 5)).1.getEntry 5 = none :=
  ⟨by decide, (c3_dispatch_delivers_at_most_once w1 5 (some 7) 3 (by decide)).1.1⟩

/-- C4: In every successful completion dispatch the completion signal is set
strictly before the user callback is invoked: the action trace starts with
the signal-set action, and every callback-invocation action sits at a
strictly later position. -/
theorem c4_signal_set_before_callback (w : World) (key : Nat)
    (cb : Option Nat) (hid : Nat) (h : w.getEntry key = some (cb, hid)) :
    ∃ rest, (searchCompleteCallback w (some key)).2 =
        DispatchAction.setSignal hid :: rest ∧
      ∀ i c h', (searchCompleteCallback w (some key)).2.get? i =
          some (DispatchAction.invokeCallback c h') → 0 < i := by
  have hstep := searchCompleteCallback_delivers w key cb hid h
  refine ⟨_, by rw [hstep], ?_⟩
  intro i c h' hg
  match i with
  | 0 =>
    rw [hstep] at hg
    simp at hg
  | i + 1 => exact Nat.succ_pos i

/-- Witness for C4 at the one-entry registry `w1`. -/
theorem c4_signal_set_before_callback_witness :
    w1.getEntry 5 = some (some 7, 3) ∧
    (∃ rest, (searchCompleteCallback w1 (some 5)).2 =
        DispatchAction.setSignal 3 :: rest ∧
      ∀ i c h', (searchCompleteCallback w1 (some 5)).2.get? i =
          some (DispatchAction.invokeCallback c h') → 0 < i) :=
  ⟨by decide, c4_signal_set_before_callback w1 5 (some 7) 3 (by decide)⟩

/-! ## C5, C6, C7, C10 -/

/-- With no error set, the query property returns the decoded text (or `None`
when it is empty). -/
theorem query_ok (s : SearchResult) (herr : s.error = SP_ERROR_OK) :
    s.query = .ok
      (if s.sp_search.queryText = "" then none
       else some s.sp_search.queryText) := by
  simp [SearchResult.query, maybeRaise, herr]

/-- C5 (amended): For every loaded, error-free `SearchResult`, `more()`
returns a new handle whose per-category offset equals the old offset plus
the old count; each count equals the override when a *non-zero* override is
given and otherwise (override omitted, or the falsy override `0`) the
previous count; the callback defaults to the original callback when omitted;
the query is carried over into the issued request and the search type into
the new handle. -/
theorem c5_more_advances_windows (w : World) (s : SearchResult)
    (cb : Option Nat) (tc ac rc pc : Option Nat)
    (herr : s.error = SP_ERROR_OK)
    (hkey : w.hasKey w.keyCounter = false) :
    ∃ w' t req,
      SearchResult.more w s cb tc ac rc pc =
        .ok (w', t, [InitAction.registerKey w.keyCounter,
                     InitAction.createCall req]) ∧
      t.track_offset = s.track_offset + s.track_count ∧
      t.album_offset = s.album_offset + s.album_count ∧
      t.artist_offset = s.artist_offset + s.artist_count ∧
      t.playlist_offset = s.playlist_offset + s.playlist_count ∧
      (∀ n, tc = some n → n ≠ 0 → t.track_count = n) ∧
      (tc = none ∨ tc = some 0 → t.track_count = s.track_count) ∧
      (∀ n, ac = some n → n ≠ 0 → t.album_count = n) ∧
      (ac = none ∨ ac = some 0 → t.album_count = s.album_count) ∧
      (∀ n, rc = some n → n ≠ 0 → t.artist_count = n) ∧
      (rc = none ∨ rc = some 0 → t.artist_count = s.artist_count) ∧
      (∀ n, pc = some n → n ≠ 0 → t.playlist_count = n) ∧
      (pc = none ∨ pc = some 0 → t.playlist_count = s.playlist_count) ∧
      (cb = none → t.callback = s.callback) ∧
      (∀ c, cb = some c → t.callback = some c) ∧
      (∃ q, s.query = .ok q ∧ req.query = q) ∧
      t.search_type = s.search_type := by
  have hq := query_ok s herr
  simp only [SearchResult.more, hq, SearchResult.init, hkey, Bool.false_eq_true,
    if_false]
  refine ⟨_, _, _, rfl, rfl, rfl, rfl, rfl, ?_, ?_, ?_, ?_, ?_, ?_, ?_, ?_,
    ?_, ?_, ⟨_, rfl, rfl⟩, rfl⟩
  · intro n hn hnz
    subst hn
    simp [pyOrCount, hnz]
  · rintro (rfl | rfl) <;> simp [pyOrCount]
  · intro n hn hnz
    subst hn
    simp [pyOrCount, hnz]
  · rintro (rfl | rfl) <;> simp [pyOrCount]
  · intro n hn hnz
    subst hn
    simp [pyOrCount, hnz]
  · rintro (rfl | rfl) <;> simp [pyOrCount]
  · intro n hn hnz
    subst hn
    simp [pyOrCount, hnz]
  · rintro (rfl | rfl) <;> simp [pyOrCount]
  · rintro rfl
    rfl
  · intro c hc
    subst hc
    rfl

/-- Witness for C5 (amended) on the default loaded handle and the empty
world: `more()` with no overrides advances the track window. -/
theorem c5_more_advances_windows_witness :
    (handleWith resLoaded).error = SP_ERROR_OK ∧
    w0.hasKey w0.keyCounter = false ∧
    ∃ w' t req,
      SearchResult.more w0 (handleWith resLoaded) none none none none none =
        .ok (w', t, [InitAction.registerKey w0.keyCounter,
                     InitAction.createCall req]) ∧
      t.track_offset =
        (handleWith resLoaded).track_offset +
          (handleWith resLoaded).track_count := by
  obtain ⟨w', t, req, h1, h2, -⟩ :=
    c5_more_advances_windows w0 (handleWith resLoaded) none none none none none
      (by decide) (by decide)
  exact ⟨by decide, by decide, w', t, req, h1, h2⟩

/-- Counterexample to C5 as stated: on a loaded handle with track window
(offset=0, count=20), `more(track_count=0)` produces a handle whose track
count is 20 — the previous count — not the explicitly given override 0. -/
theorem c5_zero_override_ignored_counterexample :
    (SearchResult.more w0 (handleWith resLoaded) none (some 0) none none
        none).toOption.map (fun x => x.2.1.track_count) = some 20 ∧
    (20 : Nat) ≠ 0 := by
  constructor
  · decide
  · decide

/-- C6: For every loaded, error-free `SearchResult`, `more()` with an
explicit per-category count override of `0` falls back to the previous
window's count for that category (falsy-default semantics of
`x or self.x`), and in particular does not produce a zero-count window when
the previous count was non-zero. -/
theorem c6_zero_count_override_falls_back (w : World) (s : SearchResult)
    (herr : s.error = SP_ERROR_OK)
    (hkey : w.hasKey w.keyCounter = false) :
    ∃ w' t acts,
      SearchResult.more w s none (some 0) (some 0) (some 0) (some 0) =
        .ok (w', t, acts) ∧
      t.track_count = s.track_count ∧
      t.album_count = s.album_count ∧
      t.artist_count = s.artist_count ∧
      t.playlist_count = s.playlist_count ∧
      (s.track_count ≠ 0 → t.track_count ≠ 0) ∧
      (s.album_count ≠ 0 → t.album_count ≠ 0) ∧
      (s.artist_count ≠ 0 → t.artist_count ≠ 0) ∧
      (s.playlist_count ≠ 0 → t.playlist_count ≠ 0) := by
  obtain ⟨w', t, req, h1, _, _, _, _, _, ht, _, ha, _, hr, _, hp, _, _, _, _⟩ :=
    c5_more_advances_windows w s none (some 0) (some 0) (some 0) (some 0)
      herr hkey
  have ht' := ht (Or.inr rfl)
  have ha' := ha (Or.inr rfl)
  have hr' := hr (Or.inr rfl)
  have hp' := hp (Or.inr rfl)
  exact ⟨w', t, _, h1, ht', ha', hr', hp',
    fun h => ht' ▸ h, fun h => ha' ▸ h, fun h => hr' ▸ h, fun h => hp' ▸ h⟩

/-- Witness for C6 on the default loaded handle and the empty world. -/
theorem c6_zero_count_override_falls_back_witness :
    (handleWith resLoaded).error = SP_ERROR_OK ∧
    w0.hasKey w0.keyCounter = false ∧
    ∃ w' t acts,
      SearchResult.more w0 (handleWith resLoaded) none (some 0) (some 0)
          (some 0) (some 0) = .ok (w', t, acts) ∧
      t.track_count = (handleWith resLoaded).track_count := by
  obtain ⟨w', t, acts, h1, h2, -⟩ :=
    c6_zero_count_override_falls_back w0 (handleWith resLoaded)
      (by decide) (by decide)
  exact ⟨by decide, by decide, w', t, acts, h1, h2⟩

/-- C7: Construction that issues a new remote request (no `sp_search` given)
inserts exactly one fresh correlation key, mapped to `(callback, self)`, into
the registry — and does so before issuing the create call (trace order
`registerKey` then `createCall`) — and fails with the assertion error
precisely when the freshly generated key is already present; construction
that wraps an existing resource inserts nothing into the registry and issues
no remote request.  Under the success path the inserted key was absent
before, so each key stays present at most once and only for an in-flight new
request. -/
theorem c7_construction_registers_fresh_key_once (w : World)
    (q : Option String) (cb : Option Nat) (a b c d e f g h : Nat)
    (st : Option Nat) :
    (w.hasKey w.keyCounter = false →
      ∃ w' t req,
        SearchResult.init w q cb a b c d e f g h st none true =
          .ok (w', t, [InitAction.registerKey w.keyCounter,
                       InitAction.createCall req]) ∧
        w'.callback_dict = (w.keyCounter, (cb, t.id)) :: w.callback_dict ∧
        w'.requests = w.requests ++ [req] ∧
        req.userdataKey = w.keyCounter ∧
        w.callback_dict.lookup w.keyCounter = none ∧
        w'.callback_dict.lookup w.keyCounter = some (cb, t.id)) ∧
    (w.hasKey w.keyCounter = true →
      SearchResult.init w q cb a b c d e f g h st none true =
        .error SpErr.assertionError) ∧
    (∀ r ar, ∃ w' t acts,
      SearchResult.init w q cb a b c d e f g h st (some r) ar =
        .ok (w', t, acts) ∧
      w'.callback_dict = w.callback_dict ∧
      w'.requests = w.requests ∧
      (∀ k, InitAction.registerKey k ∉ acts) ∧
      (∀ req, InitAction.createCall req ∉ acts)) := by
  refine ⟨?_, ?_, ?_⟩
  · intro hk
    have hnone : w.callback_dict.lookup w.keyCounter = none := by
      rcases hl : w.callback_dict.lookup w.keyCounter with _ | val
      · rfl
      · rw [World.hasKey, hl] at hk
        simp at hk
    simp only [SearchResult.init, hk, Bool.false_eq_true, if_false]
    refine ⟨_, _, _, rfl, rfl, rfl, rfl, hnone, ?_⟩
    simp [List.lookup]
  · intro hk
    simp only [SearchResult.init, hk, if_true]
  · intro r ar
    refine ⟨_, _, _, rfl, rfl, rfl, ?_, ?_⟩
    · intro k
      cases ar <;> simp
    · intro req
      cases ar <;> simp

/-- Witness for C7 on the empty world: the fresh key 0 is absent, and
construction registers it and issues the create call. -/
theorem c7_construction_registers_fresh_key_once_witness :
    w0.hasKey w0.keyCounter = false ∧
    ∃ w' t req,
      SearchResult.init w0 (some "beatles") (some 7) 0 20 0 20 0 20 0 20
          none none true =
        .ok (w', t, [InitAction.registerKey w0.keyCounter,
                     InitAction.createCall req]) ∧
      w'.callback_dict = (w0.keyCounter, (some 7, t.id)) :: w0.callback_dict ∧
      w'.requests = w0.requests ++ [req] ∧
      req.userdataKey = w0.keyCounter ∧
      w0.callback_dict.lookup w0.keyCounter = none ∧
      w'.callback_dict.lookup w0.keyCounter = some (some 7, t.id) :=
  ⟨by decide,
   (c7_construction_registers_fresh_key_once w0 (some "beatles") (some 7)
      0 20 0 20 0 20 0 20 none).1 (by decide)⟩

/-- C10: For every `SearchResult` whose error is non-nil, `more()` raises
that mapped error (surfaced through reading the `query` property, the first
constructor argument evaluated) and nothing else happens: the result is the
bare exception, so no world update, no new handle, no registry insertion and
no remote request is produced. -/
theorem c10_more_raises_before_side_effects (w : World) (s : SearchResult)
    (cb : Option Nat) (tc ac rc pc : Option Nat)
    (herr : s.error ≠ SP_ERROR_OK) :
    SearchResult.more w s cb tc ac rc pc = .error (.spError s.error) := by
  have hq : s.query = .error (.spError s.error) := by
    simp [SearchResult.query, maybeRaise, herr]
  simp only [SearchResult.more, hq]

/-- Witness for C10 at a concrete errored handle. -/
theorem c10_more_raises_before_side_effects_witness :
    (handleWith resFailed).error ≠ SP_ERROR_OK ∧
    SearchResult.more w0 (handleWith resFailed) none none none none none =
      .error (.spError (handleWith resFailed).error) :=
  ⟨by decide,
   c10_more_raises_before_side_effects w0 (handleWith resFailed)
     none none none none none (by decide)⟩

/-! ## C8 -/

/-- If the resource is not loaded at any poll in the window, the poll loop
finds nothing. -/
theorem firstLoadedAt_none (future : Nat → Resource) (t fuel : Nat)
    (h : ∀ u, t ≤ u → u ≤ t + fuel → (future u).loaded = false) :
    firstLoadedAt future t fuel = none := by
  induction fuel generalizing t with
  | zero =>
    simp [firstLoadedAt, h t le_rfl (by omega)]
  | succ n ih =>
    have ht : (future t).loaded = false := h t le_rfl (by omega)
    simp only [firstLoadedAt, ht, Bool.false_eq_true, if_false]
    exact ih (t + 1) (fun u hu1 hu2 => h u (by omega) (by omega))

/-- The poll loop returns the first poll at which the resource is loaded. -/
theorem firstLoadedAt_first (future : Nat → Resource) (t fuel t0 : Nat)
    (h1 : t ≤ t0) (h2 : t0 ≤ t + fuel) (h3 : (future t0).loaded = true)
    (h4 : ∀ u, t ≤ u → u < t0 → (future u).loaded = false) :
    firstLoadedAt future t fuel = some t0 := by
  induction fuel generalizing t with
  | zero =>
    have ht : t = t0 := by omega
    subst ht
    simp [firstLoadedAt, h3]
  | succ n ih =>
    by_cases hEq : t = t0
    · subst hEq
      simp [firstLoadedAt, h3]
    · have hf : (future t).loaded = false := h4 t le_rfl (by omega)
      simp only [firstLoadedAt, hf, Bool.false_eq_true, if_false]
      exact ih (t + 1) (by omega) (by omega)
        (fun u hu1 hu2 => h4 u (by omega) hu2)

/-- C8: `load(timeout)` waits until `is_loaded()` becomes true and then
returns self (with the loaded resource), propagating the operation's own
error if one is set at that point; if the resource is not loaded at any poll
within the deadline it returns the timeout error instead of hanging (the
poll loop is total).  Time is discrete: `future t` is the resource state at
poll `t` and `deadline` bounds the polls. -/
theorem c8_load_returns_self_or_times_out (s : SearchResult)
    (future : Nat → Resource) (deadline : Nat) :
    ((∀ t, t ≤ deadline → (future t).loaded = false) →
      s.load future deadline = .error .timeout) ∧
    (∀ t0, t0 ≤ deadline → (future t0).loaded = true →
      (∀ u, u < t0 → (future u).loaded = false) →
      ((future t0).errorCode = SP_ERROR_OK →
        s.load future deadline = .ok { s with sp_search := future t0 }) ∧
      ((future t0).errorCode ≠ SP_ERROR_OK →
        s.load future deadline = .error (.spError (future t0).errorCode))) := by
  constructor
  · intro h
    have hn := firstLoadedAt_none future 0 deadline
      (fun u _ hu2 => h u (by omega))
    simp [SearchResult.load, utilsLoad, hn]
  · intro t0 h1 h2 h3
    have hf := firstLoadedAt_first future 0 deadline t0 (Nat.zero_le _)
      (by omega) h2 (fun u _ hu2 => h3 u hu2)
    constructor
    · intro herr
      simp [SearchResult.load, utilsLoad, hf, maybeRaise, herr]
    · intro herr
      simp [SearchResult.load, utilsLoad, hf, maybeRaise, herr]

/-- A future in which the resource never becomes loaded. -/
def futureNever : Nat → Resource := fun _ => resPending

/-- Witness for C8: on a handle whose completion never fires, `load` with a
short deadline returns the timeout error rather than hanging. -/
theorem c8_load_returns_self_or_times_out_witness :
    (∀ t, t ≤ 2 → (futureNever t).loaded = false) ∧
    (handleWith resPending).load futureNever 2 = .error .timeout :=
  ⟨fun _ _ => rfl,
   (c8_load_returns_self_or_times_out (handleWith resPending) futureNever 2).1
     (fun _ _ => rfl)⟩

/-! ## C9 -/

/-- Agreement of two handles on every scalar field `__init__` assigns: the
identity, the callback, the four offset/count windows and the search type
(everything except the wrapped resource, whose reference count the external
add-ref primitive bumps). -/
def sameHandleFields (a b : SearchResult) : Prop :=
  a.id = b.id ∧ a.callback = b.callback ∧
  a.track_offset = b.track_offset ∧ a.track_count = b.track_count ∧
  a.album_offset = b.album_offset ∧ a.album_count = b.album_count ∧
  a.artist_offset = b.artist_offset ∧ a.artist_count = b.artist_count ∧
  a.playlist_offset = b.playlist_offset ∧
  a.playlist_count = b.playlist_count ∧
  a.search_type = b.search_type

/-- C9: No operation mutates a handle's offset/count windows, callback or
search type after construction: each category accessor hands back the
receiver unchanged on every scalar field (its only effect through the
receiver is the external add-ref on the wrapped resource), and `more()`
builds a brand-new handle (fresh identity from the world's handle counter)
rather than updating the originating one — in this embedding every mutation
the source performs is an explicit functional update, and none touches the
fields assigned at construction. -/
theorem c9_windows_immutable_after_construction (s : SearchResult) :
    (∀ s' v, s.tracks = .ok (s', v) → sameHandleFields s' s) ∧
    (∀ s' v, s.albums = .ok (s', v) → sameHandleFields s' s) ∧
    (∀ s' v, s.artists = .ok (s', v) → sameHandleFields s' s) ∧
    (∀ s' v, s.playlists = .ok (s', v) → sameHandleFields s' s) ∧
    (∀ w cb tc ac rc pc w' t acts,
      SearchResult.more w s cb tc ac rc pc = .ok (w', t, acts) →
      t.id = w.handleCounter ∧ w'.handleCounter = w.handleCounter + 1) := by
  refine ⟨?_, ?_, ?_, ?_, ?_⟩
  · intro s' v h
    by_cases he : s.error = SP_ERROR_OK
    · by_cases hl : s.is_loaded
      · simp [SearchResult.tracks, maybeRaise, he, hl] at h
        obtain ⟨rfl, -⟩ := h
        simp [sameHandleFields]
      · simp [SearchResult.tracks, maybeRaise, he, hl] at h
        obtain ⟨rfl, -⟩ := h
        simp [sameHandleFields]
    · simp [SearchResult.tracks, maybeRaise, he] at h
  · intro s' v h
    by_cases he : s.error = SP_ERROR_OK
    · by_cases hl : s.is_loaded
      · simp [SearchResult.albums, maybeRaise, he, hl] at h
        obtain ⟨rfl, -⟩ := h
        simp [sameHandleFields]
      · simp [SearchResult.albums, maybeRaise, he, hl] at h
        obtain ⟨rfl, -⟩ := h
        simp [sameHandleFields]
    · simp [SearchResult.albums, maybeRaise, he] at h
  · intro s' v h
    by_cases he : s.error = SP_ERROR_OK
    · by_cases hl : s.is_loaded
      · simp [SearchResult.artists, maybeRaise, he, hl] at h
        obtain ⟨rfl, -⟩ := h
        simp [sameHandleFields]
      · simp [SearchResult.artists, maybeRaise, he, hl] at h
        obtain ⟨rfl, -⟩ := h
        simp [sameHandleFields]
    · simp [SearchResult.artists, maybeRaise, he] at h
  · intro s' v h
    by_cases he : s.error = SP_ERROR_OK
    · by_cases hl : s.is_loaded
      · simp [SearchResult.playlists, maybeRaise, he, hl] at h
        obtain ⟨rfl, -⟩ := h
        simp [sameHandleFields]
      · simp [SearchResult.playlists, maybeRaise, he, hl] at h
        obtain ⟨rfl, -⟩ := h
        simp [sameHandleFields]
    · simp [SearchResult.playlists, maybeRaise, he] at h
  · intro w cb tc ac rc pc w' t acts h
    by_cases he : s.error = SP_ERROR_OK
    · have hq := query_ok s he
      by_cases hk : w.hasKey w.keyCounter
      · simp [SearchResult.more, hq, SearchResult.init, hk] at h
      · have hk' : w.hasKey w.keyCounter = false := by
          simpa using hk
        simp only [SearchResult.more, hq, SearchResult.init, hk',
          Bool.false_eq_true, if_false] at h
        simp only [Except.ok.injEq, Prod.mk.injEq] at h
        obtain ⟨hw, ht, -⟩ := h
        subst hw
        subst ht
        exact ⟨rfl, rfl⟩
    · have hq : s.query = .error (.spError s.error) := by
        simp [SearchResult.query, maybeRaise, he]
      simp [SearchResult.more, hq] at h

/-- Witness for C9 at a freshly constructed pending handle: `tracks` returns
the receiver itself, which agrees with itself on all scalar fields. -/
theorem c9_windows_immutable_after_construction_witness :
    (handleWith resPending).tracks =
      .ok (handleWith resPending, SeqResult.emptyList) ∧
    sameHandleFields (handleWith resPending) (handleWith resPending) :=
  ⟨rfl,
   (c9_windows_immutable_after_construction (handleWith resPending)).1
     (handleWith resPending) SeqResult.emptyList rfl⟩
